import Mathlib

/-
Verification of the HTTP/1.x message-framing core (hyper src/http):
a shallow embedding of MessageHead, the framing-decision functions
should_keep_alive and expecting_continue, the request/response facade
pack/unpack conversions, and the read-side decoder selection rule.
-/

namespace Hyper

/-- Modelled from the spec: HTTP version is enumerated over 1.0 and 1.1
(the version type itself lives outside the studied core). -/
inductive HttpVersion where
  | Http10
  | Http11
deriving DecidableEq, Repr

/-- Modelled from the spec: the options carried by a `Connection` header
value; the core only inspects the keep-alive and close options, other
tokens are carried opaquely. -/
inductive ConnectionOption where
  | keepAlive
  | close
  | connectionHeader (s : String)
deriving DecidableEq, Repr

/-- Modelled from the spec: the `Expect` header value; the only token the
core recognises is exactly "100-continue". -/
inductive Expect where
  | continue100
deriving DecidableEq, Repr

/-- Modelled from the spec: a transfer coding appearing in a
`Transfer-Encoding` header; the decoder only asks whether the final
coding is "chunked". -/
inductive Coding where
  | chunked
  | gzip
  | deflate
  | identityCoding
  | extCoding (s : String)
deriving DecidableEq, Repr

/-- Modelled from the spec: the header collection is an external
collaborator specified only at its interface; we model the typed view the
core reads from it (the `Connection`, `Expect`, `Transfer-Encoding` and
`Content-Length` headers, each `none` when absent) together with every
other header carried opaquely as name/value pairs. -/
structure Headers where
  connection : Option (List ConnectionOption)
  expect : Option Expect
  transferEncoding : Option (List Coding)
  contentLength : Option (List Nat)
  others : List (String × String)
deriving DecidableEq, Repr

/-- Constructs an empty header collection (`Headers::new`). -/
def Headers.new : Headers :=
  { connection := none, expect := none, transferEncoding := none,
    contentLength := none, others := [] }

instance : Inhabited Headers := ⟨Headers.new⟩

/-- Head of an HTTP message: version, subject (request line or status
line) and headers, from `MessageHead<S>` in src/http/mod.rs. The headers
field is part of the structure itself, so every head carries an
initialized header collection by construction. -/
structure MessageHead (S : Type) where
  version : HttpVersion
  subject : S
  headers : Headers
deriving DecidableEq, Repr

/-- Creates a new MessageHead with the given HTTP version and subject and
empty headers (`MessageHead::new`). -/
def MessageHead.new {S : Type} (version : HttpVersion) (subject : S) : MessageHead S :=
  { version := version, subject := subject, headers := Headers.new }

instance : Inhabited HttpVersion := ⟨HttpVersion.Http11⟩

instance {S : Type} [Inhabited S] : Inhabited (MessageHead S) :=
  ⟨{ version := default, subject := default, headers := Headers.new }⟩

/-- Checks if a connection should be kept alive, from `should_keep_alive`
in src/http/mod.rs: the two guarded match arms of the source are folded
into if-then-else with the same fall-through to `true`. -/
def should_keep_alive {S : Type} (head : MessageHead S) : Bool :=
  match head.version, head.headers.connection with
  | HttpVersion.Http10, none => false
  | HttpVersion.Http10, some conn =>
      if conn.contains ConnectionOption.keepAlive then true else false
  | HttpVersion.Http11, some conn =>
      if conn.contains ConnectionOption.close then false else true
  | HttpVersion.Http11, none => true

/-- Checks if a connection is expecting a `100 Continue` before sending
its body, from `expecting_continue` in src/http/mod.rs. -/
def expecting_continue {S : Type} (head : MessageHead S) : Bool :=
  match head.version, head.headers.expect with
  | HttpVersion.Http11, some Expect.continue100 => true
  | _, _ => false

/-- Modelled from the spec: the target URI as the core sees it; origin
form keeps only path and query, absolute form additionally carries scheme
and authority (the URI type lives outside the studied core). -/
structure Uri where
  scheme : Option String
  authority : Option String
  path : String
  query : Option String
deriving DecidableEq, Repr

instance : Inhabited Uri :=
  ⟨{ scheme := none, authority := none, path := "/", query := none }⟩

/-- Modelled from the spec: rewrites a target URI into origin form, that
is path and query only (`uri::origin_form`, outside the studied core). -/
def origin_form (uri : Uri) : Uri :=
  { scheme := none, authority := none, path := uri.path, query := uri.query }

/-- Modelled from the spec: the request method; the core threads it
opaquely apart from the HEAD/CONNECT response rules. -/
inductive Method where
  | options
  | get
  | post
  | put
  | delete
  | head
  | connect
  | patch
  | extensionMethod (s : String)
deriving DecidableEq, Repr

instance : Inhabited Method := ⟨Method.get⟩

/-- An HTTP request line, from `RequestLine` in src/http/request.rs. -/
structure RequestLine where
  method : Method
  uri : Uri
deriving DecidableEq, Repr

/-- Constructs a new `RequestLine` from a method and URI
(`RequestLine::new`). -/
def RequestLine.new (method : Method) (uri : Uri) : RequestLine :=
  { method := method, uri := uri }

instance : Inhabited RequestLine := ⟨{ method := default, uri := default }⟩

/-- A request message head (`RequestHead`). -/
abbrev RequestHead := MessageHead RequestLine

/-- Modelled from the spec: a status code; the embedding only carries it
through, so a bare numeral suffices. -/
abbrev StatusCode := Nat

/-- A response message head (`ResponseHead`). -/
abbrev ResponseHead := MessageHead StatusCode

/-- Read-side chunked sub-state, from §4.3 of the specification. -/
inductive ChunkPhase where
  | readingChunkSize
  | readingChunkData (remainingInChunk : Nat)
  | readingTrailer
  | done
deriving DecidableEq, Repr

/-- Read-side body-framing strategy (`Decoder`), a tagged variant over
zero-length, fixed-length, chunked and close-delimited. -/
inductive Decoder where
  | zero
  | fixed (remaining : Nat)
  | chunked (phase : ChunkPhase)
  | closeDelimited
deriving DecidableEq, Repr

/-- Framing-selection errors: simultaneous `Transfer-Encoding: chunked`
and `Content-Length` (ambiguous framing), or multiple differing
`Content-Length` values. -/
inductive FramingError where
  | ambiguousFraming
  | conflictingContentLength
deriving DecidableEq, Repr

/-- Modelled from the spec: rule 3 of the §4.3 decoder selection. A
present `Content-Length` is a non-empty value list; all values must
agree, value 0 selects the zero decoder, a positive value the fixed
decoder. An empty list behaves as an absent header (zero, the request
rule 4 outcome). -/
def decodeContentLength (vals : List Nat) : Except FramingError Decoder :=
  match vals with
  | [] => Except.ok Decoder.zero
  | v :: rest =>
      if rest.all (fun x => x == v) then
        if v = 0 then Except.ok Decoder.zero else Except.ok (Decoder.fixed v)
      else Except.error FramingError.conflictingContentLength

/-- Modelled from the spec: the §4.3 decoder selection rules applied to a
parsed request head (the decoder implementation lives in the h1 module,
which is not part of the studied sources; rule 1 concerns responses
only). If `Transfer-Encoding` is present with final coding "chunked", a
simultaneous `Content-Length` is an ambiguous-framing error, otherwise
the chunked decoder starts at reading-chunk-size; else `Content-Length`
decides per rule 3; else a request has no body (rule 4). -/
def requestDecoder (head : RequestHead) : Except FramingError Decoder :=
  match head.headers.transferEncoding with
  | some codings =>
      if codings.getLast? = some Coding.chunked then
        match head.headers.contentLength with
        | some _ => Except.error FramingError.ambiguousFraming
        | none => Except.ok (Decoder.chunked ChunkPhase.readingChunkSize)
      else
        match head.headers.contentLength with
        | some vals => decodeContentLength vals
        | none => Except.ok Decoder.zero
  | none =>
      match head.headers.contentLength with
      | some vals => decodeContentLength vals
      | none => Except.ok Decoder.zero

/-- Modelled from the spec: a remote socket address, carried opaquely by
the request facade. -/
structure SocketAddr where
  host : String
  port : Nat
deriving DecidableEq, Repr

/-- Modelled from the spec: the message body, carried unmodified by the
facade; its default value is the empty body. -/
structure Body where
  chunks : List (List Nat)
deriving DecidableEq, Repr

/-- The default (empty) `Body` value. -/
def Body.default : Body := { chunks := [] }

/-- An HTTP Request facade, from `Request<B>` in src/http/request.rs. -/
structure Request (B : Type) where
  method : Method
  uri : Uri
  version : HttpVersion
  headers : Headers
  body : Option B
  is_proxy : Bool
  remote_addr : Option SocketAddr
deriving DecidableEq, Repr

/-- Constructs a request using a RequestHead and optional remote address
and body (`Request::pack`): destructures the head and always clears the
proxy flag. -/
def Request.pack {B : Type} (remote_addr : Option SocketAddr) (head : RequestHead)
    (body : Option B) : Request B :=
  { method := head.subject.method, uri := head.subject.uri,
    headers := head.headers, version := head.version,
    remote_addr := remote_addr, body := body, is_proxy := false }

/-- Deconstructs a request into a RequestHead and optional remote address
and body (`Request::unpack`): the URI is kept verbatim when the request
is marked for proxy use, and rewritten to origin form otherwise. -/
def Request.unpack {B : Type} (self : Request B) :
    Option SocketAddr × RequestHead × Option B :=
  let uri := if self.is_proxy then self.uri else origin_form self.uri
  (self.remote_addr,
   { subject := RequestLine.new self.method uri,
     headers := self.headers, version := self.version },
   self.body)

/-- Set that the URI should use the absolute form (`Request::set_proxy`). -/
def Request.set_proxy {B : Type} (self : Request B) (is_proxy : Bool) : Request B :=
  { self with is_proxy := is_proxy }

/-- Take the Request body (`Request::body`, consuming): the stored body,
or the default body when none was ever set. -/
def Request.take_body (self : Request Body) : Body :=
  self.body.getD Body.default

/-- An HTTP Response facade, from `Response<B>` in src/http/response.rs. -/
structure Response (B : Type) where
  version : HttpVersion
  headers : Headers
  status : StatusCode
  body : Option B
deriving DecidableEq, Repr

/-- Constructs a response using a ResponseHead and optional body
(`Response::pack`). -/
def Response.pack {B : Type} (head : ResponseHead) (body : Option B) : Response B :=
  { status := head.subject, version := head.version,
    headers := head.headers, body := body }

/-- Deconstructs a response into a ResponseHead and optional body
(`Response::unpack`). -/
def Response.unpack {B : Type} (self : Response B) : ResponseHead × Option B :=
  ({ version := self.version, headers := self.headers, subject := self.status },
   self.body)

/-- Take the `Body` of this response (`Response::body`, consuming): the
stored body, or the default body when none was ever set. -/
def Response.take_body (self : Response Body) : Body :=
  self.body.getD Body.default

/-- An absolute-form URI used in concrete evaluations below. -/
def exAbsUri : Uri :=
  { scheme := some "http", authority := some "example.com",
    path := "/", query := none }

/-- A request head carrying both `Transfer-Encoding: chunked` and
`Content-Length: 10`. -/
def exChunkedClHead : RequestHead :=
  { version := HttpVersion.Http11,
    subject := RequestLine.new Method.post default,
    headers := { Headers.new with
                 transferEncoding := some [Coding.chunked],
                 contentLength := some [10] } }

/-- A 1.0 response head with `Connection: keep-alive` and no other
headers. -/
def exHeadA : MessageHead StatusCode :=
  { version := HttpVersion.Http10,
    subject := 200,
    headers := { Headers.new with
                 connection := some [ConnectionOption.keepAlive] } }

/-- A 1.0 request head agreeing with `exHeadA` on the Connection header
but differing in subject type and in every other header. -/
def exHeadB : RequestHead :=
  { version := HttpVersion.Http10,
    subject := RequestLine.new Method.get default,
    headers := { connection := some [ConnectionOption.keepAlive],
                 expect := none,
                 transferEncoding := some [Coding.chunked],
                 contentLength := some [3],
                 others := [("host", "example.com")] } }

/-- A 1.0 response head with `Expect: 100-continue` and no other
headers. -/
def exHeadC : MessageHead StatusCode :=
  { version := HttpVersion.Http10,
    subject := 404,
    headers := { Headers.new with expect := some Expect.continue100 } }

/-- A 1.0 request head agreeing with `exHeadC` on the Expect header but
differing in subject type and in every other header. -/
def exHeadD : RequestHead :=
  { version := HttpVersion.Http10,
    subject := RequestLine.new Method.post exAbsUri,
    headers := { Headers.new with
                 expect := some Expect.continue100,
                 contentLength := some [5] } }

/-- A concrete request built without a body. -/
def exReqNoBody : Request Body :=
  Request.pack none (MessageHead.new HttpVersion.Http11 default) none

/-- A concrete request built with a two-byte body. -/
def exReqWithBody : Request Body :=
  Request.pack (some { host := "127.0.0.1", port := 80 })
    (MessageHead.new HttpVersion.Http11 (RequestLine.new Method.post exAbsUri))
    (some { chunks := [[104, 105]] })

/-- A concrete response built without a body. -/
def exRespNoBody : Response Body :=
  Response.pack (MessageHead.new HttpVersion.Http10 204) none

/-- A concrete response built with a one-byte body. -/
def exRespWithBody : Response Body :=
  Response.pack (MessageHead.new HttpVersion.Http11 200)
    (some { chunks := [[104]] })

/-- C1: for every MessageHead, `should_keep_alive` returns false exactly
when the version is 1.0 with the Connection header absent, the version is
1.0 with a Connection header lacking the keep-alive option, or the
version is 1.1 with a Connection header containing the close option; in
every other combination of version and Connection header it returns
true. -/
theorem should_keep_alive_false_iff {S : Type} (head : MessageHead S) :
    should_keep_alive head = false ↔
      (head.version = HttpVersion.Http10 ∧ head.headers.connection = none) ∨
      (head.version = HttpVersion.Http10 ∧ ∃ conn,
        head.headers.connection = some conn ∧
        conn.contains ConnectionOption.keepAlive = false) ∨
      (head.version = HttpVersion.Http11 ∧ ∃ conn,
        head.headers.connection = some conn ∧
        conn.contains ConnectionOption.close = true) := by
  obtain ⟨v, s, ⟨conn, e, te, cl, o⟩⟩ := head
  cases v <;> rcases conn with _ | c
  · simp [should_keep_alive]
  · cases hc : c.contains ConnectionOption.keepAlive <;>
      simp [should_keep_alive, hc]
  · simp [should_keep_alive]
  · cases hc : c.contains ConnectionOption.close <;>
      simp [should_keep_alive, hc]

/-- C2: for every MessageHead, `expecting_continue` returns true if and
only if the version is 1.1 and the Expect header is present with the
100-continue value; in particular it is false for any 1.0 head and for
any head lacking the Expect header. -/
theorem expecting_continue_true_iff {S : Type} (head : MessageHead S) :
    expecting_continue head = true ↔
      head.version = HttpVersion.Http11 ∧
        head.headers.expect = some Expect.continue100 := by
  obtain ⟨v, s, ⟨c, e, te, cl, o⟩⟩ := head
  cases v <;> rcases e with _ | ⟨⟩ <;> simp [expecting_continue]

/-- C3: for every parsed request head carrying both a Transfer-Encoding
header whose final coding is chunked and a Content-Length header, the
decoder selection returns an ambiguous-framing error rather than any
Decoder value. -/
theorem requestDecoder_ambiguous (head : RequestHead)
    (codings : List Coding) (vals : List Nat)
    (hte : head.headers.transferEncoding = some codings)
    (hchunked : codings.getLast? = some Coding.chunked)
    (hcl : head.headers.contentLength = some vals) :
    requestDecoder head = Except.error FramingError.ambiguousFraming := by
  unfold requestDecoder
  rw [hte, hcl]
  simp [hchunked]

/-- Witness for C3: the concrete head with `Transfer-Encoding: chunked`
and `Content-Length: 10` is rejected. -/
theorem requestDecoder_ambiguous_witness :
    requestDecoder exChunkedClHead = Except.error FramingError.ambiguousFraming :=
  requestDecoder_ambiguous exChunkedClHead [Coding.chunked] [10] rfl rfl rfl

/-- C4: `Request::unpack` returns the remote address, a head whose URI is
the request URI verbatim when the request is marked for proxy use and its
origin-form rewrite otherwise, with method, version and headers
unchanged, and the body unchanged. -/
theorem request_unpack_spec {B : Type} (r : Request B) :
    r.unpack = (r.remote_addr,
      { version := r.version,
        subject := RequestLine.new r.method
          (if r.is_proxy then r.uri else origin_form r.uri),
        headers := r.headers }, r.body) := rfl

/-- C5: `Request::pack` stores the head's method, URI, version and
headers, the given remote address and the given body, all unmodified. -/
theorem request_pack_spec {B : Type} (addr : Option SocketAddr)
    (head : RequestHead) (b : Option B) :
    (Request.pack addr head b).method = head.subject.method ∧
    (Request.pack addr head b).uri = head.subject.uri ∧
    (Request.pack addr head b).version = head.version ∧
    (Request.pack addr head b).headers = head.headers ∧
    (Request.pack addr head b).remote_addr = addr ∧
    (Request.pack addr head b).body = b :=
  ⟨rfl, rfl, rfl, rfl, rfl, rfl⟩

/-- C6: packing a response head and body into the facade and unpacking it
again is the identity round-trip. -/
theorem response_pack_unpack_id {B : Type} (head : ResponseHead) (b : Option B) :
    (Response.pack head b).unpack = (head, b) := by
  obtain ⟨v, s, hs⟩ := head
  rfl

/-- C7: `MessageHead::new` returns a head with the given version and
subject and an initialized empty header collection, and the
default-constructed head likewise has initialized empty headers; the
headers field is part of the structure, so no head exists without it. -/
theorem messageHead_headers_initialized {S : Type} [Inhabited S]
    (v : HttpVersion) (s : S) :
    (MessageHead.new v s).version = v ∧
    (MessageHead.new v s).subject = s ∧
    (MessageHead.new v s).headers = Headers.new ∧
    (default : MessageHead S).headers = Headers.new :=
  ⟨rfl, rfl, rfl, rfl⟩

/-- C8: `should_keep_alive` and `expecting_continue` are deterministic
functions of the version and the Connection (respectively Expect) header
alone: any two heads agreeing on those, even over different subject types
and with every other header different, get the same verdict. Both are
pure Lean functions of an immutable head, so neither can modify its
argument. -/
theorem framing_decisions_deterministic :
    (∀ (S T : Type) (h1 : MessageHead S) (h2 : MessageHead T),
      h1.version = h2.version →
      h1.headers.connection = h2.headers.connection →
      should_keep_alive h1 = should_keep_alive h2) ∧
    (∀ (S T : Type) (h1 : MessageHead S) (h2 : MessageHead T),
      h1.version = h2.version →
      h1.headers.expect = h2.headers.expect →
      expecting_continue h1 = expecting_continue h2) := by
  constructor
  · intro S T h1 h2 hv hc
    unfold should_keep_alive
    rw [hv, hc]
  · intro S T h1 h2 hv he
    unfold expecting_continue
    rw [hv, he]

/-- Witness for C8: heads agreeing only on version and the relevant
header, differing in subject type and other headers, get equal
verdicts. -/
theorem framing_decisions_deterministic_witness :
    should_keep_alive exHeadA = should_keep_alive exHeadB ∧
    expecting_continue exHeadC = expecting_continue exHeadD :=
  ⟨framing_decisions_deterministic.1 StatusCode RequestLine exHeadA exHeadB rfl rfl,
   framing_decisions_deterministic.2 StatusCode RequestLine exHeadC exHeadD rfl rfl⟩

/-- C9: `Request::pack` always clears the proxy flag, so unpacking a
packed request rewrites the URI to origin form; calling `set_proxy true`
in between restores the identity round-trip, and without it the
round-trip is not the identity on absolute-form URIs. -/
theorem request_pack_unpack_origin_form {B : Type} (addr : Option SocketAddr)
    (head : RequestHead) (b : Option B) :
    (Request.pack addr head b).is_proxy = false ∧
    (Request.pack addr head b).unpack =
      (addr, { version := head.version,
               subject := RequestLine.new head.subject.method
                 (origin_form head.subject.uri),
               headers := head.headers }, b) ∧
    ((Request.pack addr head b).set_proxy true).unpack = (addr, head, b) ∧
    ∃ h0 : RequestHead,
      (Request.pack (none : Option SocketAddr) h0 (none : Option B)).unpack ≠
        (none, h0, none) := by
  refine ⟨rfl, rfl, ?_, ?_⟩
  · obtain ⟨v, ⟨m, u⟩, hs⟩ := head
    rfl
  · refine ⟨{ version := HttpVersion.Http11,
              subject := RequestLine.new Method.get exAbsUri,
              headers := Headers.new }, ?_⟩
    intro hcontr
    have h1 := congrArg (fun p => p.2.1.subject.uri.scheme) hcontr
    simp [Request.pack, Request.unpack, origin_form, RequestLine.new,
      exAbsUri] at h1

/-- C10: the consuming body accessor of a request or response returns the
default empty Body when no body was set, and exactly the stored body
otherwise. -/
theorem take_body_spec :
    (∀ r : Request Body, r.body = none → r.take_body = Body.default) ∧
    (∀ (r : Request Body) (b : Body), r.body = some b → r.take_body = b) ∧
    (∀ r : Response Body, r.body = none → r.take_body = Body.default) ∧
    (∀ (r : Response Body) (b : Body), r.body = some b → r.take_body = b) := by
  refine ⟨?_, ?_, ?_, ?_⟩
  · intro r h
    simp [Request.take_body, h]
  · intro r b h
    simp [Request.take_body, h]
  · intro r h
    simp [Response.take_body, h]
  · intro r b h
    simp [Response.take_body, h]

/-- Witness for C10: concrete requests and responses with and without a
body. -/
theorem take_body_spec_witness :
    exReqNoBody.take_body = Body.default ∧
    exReqWithBody.take_body = { chunks := [[104, 105]] } ∧
    exRespNoBody.take_body = Body.default ∧
    exRespWithBody.take_body = { chunks := [[104]] } :=
  ⟨take_body_spec.1 exReqNoBody rfl,
   take_body_spec.2.1 exReqWithBody { chunks := [[104, 105]] } rfl,
   take_body_spec.2.2.1 exRespNoBody rfl,
   take_body_spec.2.2.2 exRespWithBody { chunks := [[104]] } rfl⟩

end Hyper
